import Mathlib

/-!
Shallow embedding of the deterministic risk-derivation engine of
`app/modules/ews/service.py` (HackTU early-warning API), together with
proofs about the specification claims for that engine.

Modelling conventions:
* Python floats are modelled as exact rationals (`ℚ`).  Python `round(x, n)`
  is modelled as decimal rounding to `n` places with ties to even, which is
  the documented semantics of the built-in `round`.
* Python `datetime` values are modelled as integer seconds and
  `timedelta(hours=h)` as `3600 * h` seconds.  The single `datetime.utcnow()`
  read inside `HazardPredictionModel.predict` becomes an explicit `now`
  parameter (state-passing translation of the clock read).
* Strings are Lean strings; the byte encoding used for hashing maps each
  character to its code point, which agrees with UTF-8 on the ASCII inputs
  this engine receives (decimal area ids and enum member strings).
* Python dict `.get(key, default)` lookups over string keys become
  `if`-chains with the same default.
* The `Rat` arithmetic operations of the library are irreducible by default;
  they are made semireducible here so that concrete rational computations can
  be settled by kernel evaluation.
-/

attribute [local semireducible] Rat.add Rat.mul Rat.sub Rat.inv Rat.ofScientific

namespace EWS

/-- Decimal rounding helper: round a rational to the nearest integer, with
ties going to the even integer (the documented tie-breaking behaviour of
Python `round`). -/
def roundHalfEven (q : ℚ) : ℤ :=
  let f := Rat.floor q
  if q - f < 1/2 then f
  else if 1/2 < q - f then f + 1
  else if f % 2 = 0 then f else f + 1

/-- Model of Python `round(x, 2)`. -/
def round2 (q : ℚ) : ℚ := (roundHalfEven (q * 100) : ℚ) / 100

/-- Model of Python `round(x, 1)`. -/
def round1 (q : ℚ) : ℚ := (roundHalfEven (q * 10) : ℚ) / 10

/-- The risk-level enum of `app/core/ctypes/enums.py`. -/
inductive RiskLevel where
  | LOW
  | MODERATE
  | HIGH
  | EXTREME
deriving DecidableEq, Repr

/-- Reference classification table, written from the specification's words
for the shared RiskClassifier component: score below 0.30 is LOW, scores in
[0.30, 0.60) are MODERATE, scores in [0.60, 0.85) are HIGH, and scores of
at least 0.85 are EXTREME; every band is closed on its lower boundary. -/
def RiskClassifier.classify (score : ℚ) : RiskLevel :=
  if score < 0.3 then .LOW
  else if 0.3 ≤ score ∧ score < 0.6 then .MODERATE
  else if 0.6 ≤ score ∧ score < 0.85 then .HIGH
  else .EXTREME

namespace MD5

/-- Everything is reduced modulo this power of two: 2 to the 32. -/
def M32 : ℕ := 4294967296

/-- The 64 sine-derived round constants of MD5. -/
def K : List ℕ := [3614090360, 3905402710, 606105819, 3250441966, 4118548399,
  1200080426, 2821735955, 4249261313, 1770035416, 2336552879, 4294925233,
  2304563134, 1804603682, 4254626195, 2792965006, 1236535329, 4129170786,
  3225465664, 643717713, 3921069994, 3593408605, 38016083, 3634488961,
  3889429448, 568446438, 3275163606, 4107603335, 1163531501, 2850285829,
  4243563512, 1735328473, 2368359562, 4294588738, 2272392833, 1839030562,
  4259657740, 2763975236, 1272893353, 4139469664, 3200236656, 681279174,
  3936430074, 3572445317, 76029189, 3654602809, 3873151461, 530742520,
  3299628645, 4096336452, 1126891415, 2878612391, 4237533241, 1700485571,
  2399980690, 4293915773, 2240044497, 1873313359, 4264355552, 2734768916,
  1309151649, 4149444226, 3174756917, 718787259, 3951481745]

/-- The per-round left-rotation amounts of MD5. -/
def S : List ℕ := [7, 12, 17, 22, 7, 12, 17, 22, 7, 12, 17, 22, 7, 12, 17, 22,
  5, 9, 14, 20, 5, 9, 14, 20, 5, 9, 14, 20, 5, 9, 14, 20,
  4, 11, 16, 23, 4, 11, 16, 23, 4, 11, 16, 23, 4, 11, 16, 23,
  6, 10, 15, 21, 6, 10, 15, 21, 6, 10, 15, 21, 6, 10, 15, 21]

/-- Left rotation of a 32-bit word (the word is a natural below 2^32). -/
def rotl (x n : ℕ) : ℕ := ((x <<< n) % M32) ||| (x >>> (32 - n))

/-- Bitwise complement within 32 bits. -/
def mnot (x : ℕ) : ℕ := x ^^^ 4294967295

/-- The four MD5 mixing functions, selected by the round index. -/
def mf (i b c d : ℕ) : ℕ :=
  if i < 16 then (b &&& c) ||| (mnot b &&& d)
  else if i < 32 then (d &&& b) ||| (mnot d &&& c)
  else if i < 48 then b ^^^ c ^^^ d
  else c ^^^ (b ||| mnot d)

/-- The MD5 message-word schedule, selected by the round index. -/
def mg (i : ℕ) : ℕ :=
  if i < 16 then i
  else if i < 32 then (5 * i + 1) % 16
  else if i < 48 then (3 * i + 5) % 16
  else (7 * i) % 16

/-- Little-endian 32-bit word number `g` of a 64-byte chunk. -/
def wordAt (chunk : List ℕ) (g : ℕ) : ℕ :=
  chunk.getD (4 * g) 0 + 256 * chunk.getD (4 * g + 1) 0 +
    65536 * chunk.getD (4 * g + 2) 0 + 16777216 * chunk.getD (4 * g + 3) 0

/-- One of the 64 MD5 rounds applied to the running `(a, b, c, d)` state. -/
def step (chunk : List ℕ) (st : ℕ × ℕ × ℕ × ℕ) (i : ℕ) : ℕ × ℕ × ℕ × ℕ :=
  let (a, b, c, d) := st
  let f := (mf i b c d + a + K.getD i 0 + wordAt chunk (mg i)) % M32
  (d, (b + rotl f (S.getD i 0)) % M32, b, c)

/-- MD5 compression of one 64-byte chunk into the state. -/
def compress (st : ℕ × ℕ × ℕ × ℕ) (chunk : List ℕ) : ℕ × ℕ × ℕ × ℕ :=
  let (a0, b0, c0, d0) := st
  let (a, b, c, d) := (List.range 64).foldl (step chunk) st
  ((a0 + a) % M32, (b0 + b) % M32, (c0 + c) % M32, (d0 + d) % M32)

/-- MD5 padding: a 0x80 byte, zeros up to 56 modulo 64, then the bit length
as a little-endian 64-bit quantity. -/
def pad (msg : List ℕ) : List ℕ :=
  let ml := 8 * msg.length
  let zeros := (119 - msg.length % 64) % 64
  msg ++ [128] ++ List.replicate zeros 0 ++
    (List.range 8).map (fun i => ml / 2 ^ (8 * i) % 256)

/-- Split a byte list into chunks of 64, with explicit fuel so that the
recursion is structural and kernel-reducible. -/
def toChunksF : ℕ → List ℕ → List (List ℕ)
  | 0, _ => []
  | _, [] => []
  | fuel + 1, l => l.take 64 :: toChunksF fuel (l.drop 64)

/-- Split a byte list into 64-byte chunks. -/
def toChunks (l : List ℕ) : List (List ℕ) := toChunksF l.length l

/-- The final MD5 state over a byte message. -/
def digestState (msg : List ℕ) : ℕ × ℕ × ℕ × ℕ :=
  (toChunks (pad msg)).foldl compress (1732584193, 4023233417, 2562383102, 271733878)

/-- The first 8 characters of the hexadecimal MD5 digest, read as an unsigned
integer.  The digest serialises the final `a` word little-endian, so this is
the byte-swap of that word. -/
def first8hex (msg : List ℕ) : ℕ :=
  let (a, _, _, _) := digestState msg
  16777216 * (a % 256) + 65536 * (a / 256 % 256) + 256 * (a / 65536 % 256) +
    a / 16777216 % 256

end MD5

/-- Byte encoding of a string: one byte per character code point.  This
coincides with UTF-8 for the ASCII strings the engine hashes. -/
def strBytes (s : String) : List ℕ := s.data.map Char.toNat

/-- Result record of `StabilityModel.predict` (service.py lines 59-65). -/
structure StabilityResult where
  stability_index : ℚ
  confidence : ℚ
  soil_moisture_avg : ℚ
  displacement_trend_mm_per_month : ℚ
  rainfall_accumulation_mm : ℤ
deriving DecidableEq, Repr

namespace StabilityModel

/-- Translation of `StabilityModel.predict` (service.py lines 41-65).  The
two time-range parameters are accepted and ignored, exactly as in the
source. -/
def predict (area_id : ℕ) (time_range_from time_range_to : ℤ) : StabilityResult :=
  let _ := time_range_from
  let _ := time_range_to
  let seed := area_id % 100
  let stability_index : ℚ := 0.3 + (seed : ℚ) / 200
  let confidence : ℚ := 0.85 + (seed : ℚ) / 1000
  let soil_moisture : ℚ := 0.4 + (seed : ℚ) / 250
  let displacement : ℚ := 2.0 + (seed : ℚ) / 25
  let rainfall : ℤ := 300 + (seed : ℤ) * 2
  { stability_index := round2 stability_index
    confidence := round2 confidence
    soil_moisture_avg := round2 soil_moisture
    displacement_trend_mm_per_month := round1 displacement
    rainfall_accumulation_mm := rainfall }

end StabilityModel

/-- Result record of `HazardPredictionModel.predict` (service.py lines
108-114). -/
structure HazardPrediction where
  risk_score : ℚ
  risk_level : RiskLevel
  confidence : ℚ
  expected_window_from : ℤ
  expected_window_to : ℤ
deriving DecidableEq, Repr

namespace HazardPredictionModel

/-- The seed derivation of service.py line 79-80: decimal rendering of the
area id concatenated with the hazard and horizon strings, hashed with MD5,
first 8 hex digits read as an integer, reduced modulo 100. -/
def seedOf (area_id : ℕ) (hazard horizon : String) : ℕ :=
  MD5.first8hex (strBytes (toString area_id ++ hazard ++ horizon)) % 100

/-- The unrounded risk score of service.py line 82. -/
def rawScore (area_id : ℕ) (hazard horizon : String) : ℚ :=
  0.5 + (seedOf area_id hazard horizon : ℚ) / 200

/-- The inline risk-level chain of service.py lines 86-93. -/
def classifyScore (score : ℚ) : RiskLevel :=
  if score < 0.3 then .LOW
  else if score < 0.6 then .MODERATE
  else if score < 0.85 then .HIGH
  else .EXTREME

/-- The horizon-to-hours dict lookup of service.py lines 97-103, default 24. -/
def horizon_hours (horizon : String) : ℕ :=
  if horizon = "6h" then 6
  else if horizon = "24h" then 24
  else if horizon = "72h" then 72
  else if horizon = "7d" then 168
  else 24

/-- Translation of `HazardPredictionModel.predict` (service.py lines 71-114).
The wall-clock read `datetime.utcnow()` is the explicit `now` parameter, in
seconds. -/
def predict (area_id : ℕ) (hazard horizon : String) (now : ℤ) : HazardPrediction :=
  let seed := seedOf area_id hazard horizon
  let risk_score : ℚ := 0.5 + (seed : ℚ) / 200
  let confidence : ℚ := 0.80 + (seed : ℚ) / 500
  let risk_level := classifyScore risk_score
  let hours := horizon_hours horizon
  { risk_score := round2 risk_score
    risk_level := risk_level
    confidence := round2 confidence
    expected_window_from := now + 3600 * ((hours / 2 : ℕ) : ℤ)
    expected_window_to := now + 3600 * (hours : ℤ) }

end HazardPredictionModel

/-- Input record of `ScenarioSimulationModel.simulate`: the scenario type is
the enum member string, the three numeric fields are optional as in the
pydantic schema. -/
structure ScenarioInput where
  type : String
  total_mm : Option ℚ
  duration_hours : Option ℤ
  rise_meters : Option ℚ

/-- Result record of `ScenarioSimulationModel.simulate` (service.py lines
156-161). -/
structure ScenarioResult where
  scenario_type : String
  risk_score : ℚ
  risk_level : RiskLevel
  risk_delta : ℚ
deriving DecidableEq, Repr

namespace ScenarioSimulationModel

/-- The impact-multiplier dict lookup of service.py lines 128-135, with
default 1.2 for unknown scenario types. -/
def impact_multipliers (t : String) : ℚ :=
  if t = "rainfall" then 1.3
  else if t = "soil_saturation" then 1.2
  else if t = "groundwater_rise" then 1.25
  else if t = "load_increase" then 1.15
  else 1.2

/-- The adjusted multiplier of service.py lines 135-141.  Python's
truthiness guard on the optional fields is subsumed by the comparisons: a
present value passes the guard exactly when it is nonzero, and the
comparisons `> 200` and `> 1.0` already fail at zero. -/
def multiplierOf (scenario : ScenarioInput) : ℚ :=
  let m := impact_multipliers scenario.type
  let m := match scenario.total_mm with
    | some v => if 200 < v then m + 0.1 else m
    | none => m
  match scenario.rise_meters with
    | some v => if 1 < v then m + 0.15 else m
    | none => m

/-- The unrounded clamped risk score of service.py line 143. -/
def rawScore (baseline_risk : ℚ) (scenario : ScenarioInput) : ℚ :=
  min (baseline_risk * multiplierOf scenario) 1

/-- The inline risk-level chain of service.py lines 147-154. -/
def classifyScore (score : ℚ) : RiskLevel :=
  if score < 0.3 then .LOW
  else if score < 0.6 then .MODERATE
  else if score < 0.85 then .HIGH
  else .EXTREME

/-- Translation of `ScenarioSimulationModel.simulate` (service.py lines
120-161). -/
def simulate (baseline_risk : ℚ) (scenario : ScenarioInput) : ScenarioResult :=
  let risk_score := rawScore baseline_risk scenario
  let risk_delta := risk_score - baseline_risk
  { scenario_type := scenario.type
    risk_score := round2 risk_score
    risk_level := classifyScore risk_score
    risk_delta := round2 risk_delta }

end ScenarioSimulationModel

/-- One GeoJSON feature emitted by `HeatmapGenerator.generate_grid`
(service.py lines 224-234).  The constant type tags are kept as fields. -/
structure HeatmapFeature where
  feature_type : String
  geometry_type : String
  coordinates : List (List (ℚ × ℚ))
  risk_score : ℚ
  risk_level : RiskLevel
deriving DecidableEq, Repr

namespace HeatmapGenerator

/-- The resolution-to-side dict lookup of service.py lines 177-182, with
default 4 for unknown resolutions. -/
def grid_sizes (resolution : String) : ℕ :=
  if resolution = "low" then 2
  else if resolution = "medium" then 4
  else if resolution = "high" then 8
  else 4

/-- The per-cell seed of service.py line 200. -/
def cellSeed (area_id i j : ℕ) : ℕ := (area_id + i * 10 + j) % 100

/-- The unrounded per-cell risk score of service.py line 201. -/
def cellRaw (area_id i j : ℕ) : ℚ := 0.2 + (cellSeed area_id i j : ℚ) / 150

/-- The inline risk-level chain of service.py lines 204-211. -/
def classifyScore (score : ℚ) : RiskLevel :=
  if score < 0.3 then .LOW
  else if score < 0.6 then .MODERATE
  else if score < 0.85 then .HIGH
  else .EXTREME

/-- One grid cell of service.py lines 191-235: an axis-aligned rectangle at
row `i`, column `j` with the riskiness derived from the cell seed.
Coordinate pairs are `(lon, lat)`. -/
def cell (area_id i j : ℕ) : HeatmapFeature :=
  let base_lon : ℚ := 75.79
  let base_lat : ℚ := 26.91
  let cell_size : ℚ := 0.01
  let min_lon := base_lon + (i : ℚ) * cell_size
  let max_lon := base_lon + ((i : ℚ) + 1) * cell_size
  let min_lat := base_lat + (j : ℚ) * cell_size
  let max_lat := base_lat + ((j : ℚ) + 1) * cell_size
  { feature_type := "Feature"
    geometry_type := "Polygon"
    coordinates := [[(min_lon, min_lat), (max_lon, min_lat), (max_lon, max_lat),
      (min_lon, max_lat), (min_lon, min_lat)]]
    risk_score := round2 (cellRaw area_id i j)
    risk_level := classifyScore (cellRaw area_id i j) }

/-- Translation of `HeatmapGenerator.generate_grid` (service.py lines
167-237).  The hazard and layer arguments are accepted and ignored, exactly
as in the source. -/
def generate_grid (area_id : ℕ) (hazard layer resolution : String) :
    List HeatmapFeature :=
  let _ := hazard
  let _ := layer
  let grid_size := grid_sizes resolution
  (List.range grid_size).flatMap fun i =>
    (List.range grid_size).map fun j => cell area_id i j

end HeatmapGenerator

/-- A latitude/longitude pair, as in the `Coordinate` schema. -/
structure Coordinate where
  lat : ℚ
  lon : ℚ

/-- One evacuation route emitted by `RoutingEngine.compute_safe_routes`
(service.py lines 273-281).  Coordinate pairs are `(lon, lat)`. -/
structure EvacuationRoute where
  route_id : String
  risk_score : ℚ
  eta_minutes : ℕ
  geometry_type : String
  coordinates : List (ℚ × ℚ)
deriving DecidableEq, Repr

namespace RoutingEngine

/-- The per-route seed of service.py line 258. -/
def routeSeed (area_id idx route_num : ℕ) : ℕ := (area_id + idx * 10 + route_num) % 100

/-- One route option of service.py lines 254-281 for the start point at
index `idx` and route number `route_num`. -/
def route (area_id idx route_num : ℕ) (start_point : Coordinate) : EvacuationRoute :=
  let seed := routeSeed area_id idx route_num
  let risk_score : ℚ := 0.1 + (seed : ℚ) / 500
  let eta_minutes := 10 + seed / 5
  let end_lon := start_point.lon + 0.02 + (route_num : ℚ) * 0.01
  let end_lat := start_point.lat + 0.02 + (route_num : ℚ) * 0.01
  { route_id := "route_" ++ toString idx ++ "_" ++ toString route_num
    risk_score := round2 risk_score
    eta_minutes := eta_minutes
    geometry_type := "LineString"
    coordinates := [(start_point.lon, start_point.lat),
      (start_point.lon + 0.01, start_point.lat + 0.01), (end_lon, end_lat)] }

/-- Translation of `RoutingEngine.compute_safe_routes` (service.py lines
243-284): two route options per enumerated start point. -/
def compute_safe_routes (area_id : ℕ) (start_points : List Coordinate) :
    List EvacuationRoute :=
  start_points.enum.flatMap fun ip =>
    (List.range 2).map fun route_num => route area_id ip.1 route_num ip.2

end RoutingEngine

/-!
Helper lemmas shared by the claim theorems.
-/

/-- Validation of the MD5 embedding against the reference digests of the
real hash (empty string, the RFC 1321 string abc, and the seed string used
by the end-to-end example of the spec). -/
theorem md5_reference_vectors :
    MD5.first8hex (strBytes "") = 3558706393 ∧
    MD5.first8hex (strBytes "abc") = 2416005272 ∧
    MD5.first8hex (strBytes "42landslide24h") = 1030909194 ∧
    HazardPredictionModel.seedOf 42 "landslide" "24h" = 94 := by
  refine ⟨by decide, by decide, by decide, by decide⟩

theorem seedOf_lt_100 (a : ℕ) (h hz : String) :
    HazardPredictionModel.seedOf a h hz < 100 :=
  Nat.mod_lt _ (by norm_num)

theorem hazard_chain_eq_classify (s : ℚ) :
    HazardPredictionModel.classifyScore s = RiskClassifier.classify s := by
  unfold HazardPredictionModel.classifyScore RiskClassifier.classify
  by_cases h1 : s < (0.3 : ℚ) <;> by_cases h2 : s < (0.6 : ℚ) <;>
    by_cases h3 : s < (0.85 : ℚ) <;> simp_all [not_lt]

theorem scenario_chain_eq_classify (s : ℚ) :
    ScenarioSimulationModel.classifyScore s = RiskClassifier.classify s :=
  hazard_chain_eq_classify s

theorem heatmap_chain_eq_classify (s : ℚ) :
    HeatmapGenerator.classifyScore s = RiskClassifier.classify s :=
  hazard_chain_eq_classify s

theorem hazard_seed_cases :
    ∀ s : ℕ, s < 100 →
      (0.5 : ℚ) ≤ round2 (0.5 + (s : ℚ) / 200) ∧
      round2 (0.5 + (s : ℚ) / 200) ≤ 1 ∧
      HazardPredictionModel.classifyScore (0.5 + (s : ℚ) / 200) ≠ .LOW := by
  decide

theorem route_seed_cases :
    ∀ s : ℕ, s < 100 →
      (0.1 : ℚ) ≤ round2 (0.1 + (s : ℚ) / 500) ∧
      round2 (0.1 + (s : ℚ) / 500) ≤ 0.3 ∧
      10 ≤ 10 + s / 5 ∧ 10 + s / 5 < 30 := by
  decide

theorem roundHalfEven_le {q : ℚ} {n : ℤ} (h : q ≤ n) : roundHalfEven q ≤ n := by
  unfold roundHalfEven
  dsimp only
  have hf : (Rat.floor q : ℚ) ≤ q := Rat.le_floor.mp le_rfl
  have hfn : Rat.floor q ≤ n := by
    have hq : (Rat.floor q : ℚ) ≤ (n : ℚ) := le_trans hf h
    exact_mod_cast hq
  have hlt : (Rat.floor q : ℚ) + 1/2 ≤ q → Rat.floor q < n := by
    intro hh
    by_contra hc
    push_neg at hc
    have hcq : (n : ℚ) ≤ (Rat.floor q : ℚ) := by exact_mod_cast hc
    linarith
  split_ifs with h1 h2 h3
  · exact hfn
  · have := hlt (by linarith)
    omega
  · exact hfn
  · have heq : q - Rat.floor q = 1/2 := le_antisymm (not_lt.mp h2) (not_lt.mp h1)
    have := hlt (by linarith)
    omega

theorem round2_le_one {q : ℚ} (h : q ≤ 1) : round2 q ≤ 1 := by
  unfold round2
  have h100 : q * 100 ≤ ((100 : ℤ) : ℚ) := by push_cast; linarith
  have hr : roundHalfEven (q * 100) ≤ 100 := roundHalfEven_le h100
  rw [div_le_one (by norm_num)]
  exact_mod_cast hr

theorem grid_length (a : ℕ) (h l res : String) :
    (HeatmapGenerator.generate_grid a h l res).length =
      HeatmapGenerator.grid_sizes res * HeatmapGenerator.grid_sizes res := by
  simp [HeatmapGenerator.generate_grid, List.length_flatMap, List.map_const,
    Function.comp_def]

theorem routes_length (a : ℕ) (pts : List Coordinate) :
    (RoutingEngine.compute_safe_routes a pts).length = 2 * pts.length := by
  simp [RoutingEngine.compute_safe_routes, List.length_flatMap, List.map_const,
    Function.comp_def, Nat.mul_comm]

/-!
Claim theorems.
-/

/-- C2: the classification logic embedded in HazardPredictionModel,
ScenarioSimulationModel and HeatmapGenerator is one and the same total
function, extensionally equal to the reference band table (LOW below 0.30,
MODERATE on [0.30, 0.60), HIGH on [0.60, 0.85), EXTREME from 0.85 up, each
band closed on its lower boundary) at every score, in particular on
[0, 1]. -/
theorem classification_is_single_reference_table :
    ∀ score : ℚ,
      HazardPredictionModel.classifyScore score = RiskClassifier.classify score ∧
      ScenarioSimulationModel.classifyScore score = RiskClassifier.classify score ∧
      HeatmapGenerator.classifyScore score = RiskClassifier.classify score :=
  fun score => ⟨hazard_chain_eq_classify score, scenario_chain_eq_classify score,
    heatmap_chain_eq_classify score⟩

/-- C6: StabilityModel.predict returns exactly the five seeded formulas with
seed equal to the area id modulo 100, depends only on the area id modulo 100
(so adding 100 to the area id changes nothing), ignores its time-range
arguments, and yields the base values 0.3, 0.85, 0.4, 2.0, 300 at area id
0. -/
theorem stability_formulas :
    (∀ a t1 t2, StabilityModel.predict a t1 t2 =
      { stability_index := round2 (0.3 + ((a % 100 : ℕ) : ℚ) / 200)
        confidence := round2 (0.85 + ((a % 100 : ℕ) : ℚ) / 1000)
        soil_moisture_avg := round2 (0.4 + ((a % 100 : ℕ) : ℚ) / 250)
        displacement_trend_mm_per_month := round1 (2.0 + ((a % 100 : ℕ) : ℚ) / 25)
        rainfall_accumulation_mm := 300 + ((a % 100 : ℕ) : ℤ) * 2 }) ∧
    (∀ a t1 t2 u1 u2, StabilityModel.predict a t1 t2 =
      StabilityModel.predict (a % 100) u1 u2) ∧
    (∀ k t1 t2 u1 u2, StabilityModel.predict k t1 t2 =
      StabilityModel.predict (k + 100) u1 u2) ∧
    (∀ t1 t2, StabilityModel.predict 0 t1 t2 =
      { stability_index := 0.3, confidence := 0.85, soil_moisture_avg := 0.4
        displacement_trend_mm_per_month := 2, rainfall_accumulation_mm := 300 }) := by
  refine ⟨fun a t1 t2 => rfl, fun a t1 t2 u1 u2 => ?_, fun k t1 t2 u1 u2 => ?_,
    fun t1 t2 => rfl⟩
  · have hm : a % 100 % 100 = a % 100 := by omega
    simp [StabilityModel.predict, hm]
  · have hm : (k + 100) % 100 = k % 100 := by omega
    simp [StabilityModel.predict, hm]

/-- C8: every component is deterministic in its explicit inputs.  Two
HazardPredictionModel.predict calls with the same area id, hazard and
horizon but different invocation times agree on risk score, risk level and
confidence (only the expected window is clock-anchored), and
StabilityModel.predict does not depend on its time-range arguments at all.
The remaining components take no clock input, so as Lean functions they are
deterministic by construction. -/
theorem components_deterministic :
    (∀ a h hz t1 t2,
      (HazardPredictionModel.predict a h hz t1).risk_score =
        (HazardPredictionModel.predict a h hz t2).risk_score ∧
      (HazardPredictionModel.predict a h hz t1).risk_level =
        (HazardPredictionModel.predict a h hz t2).risk_level ∧
      (HazardPredictionModel.predict a h hz t1).confidence =
        (HazardPredictionModel.predict a h hz t2).confidence) ∧
    (∀ a t1 t2 u1 u2, StabilityModel.predict a t1 t2 = StabilityModel.predict a u1 u2) :=
  ⟨fun _ _ _ _ _ => ⟨rfl, rfl, rfl⟩, fun _ _ _ _ _ => rfl⟩

/-- C10: the risk score returned by HazardPredictionModel.predict always
lies in [0.5, 1.0] and its risk level is never LOW, for every area id,
hazard, horizon and invocation time. -/
theorem hazard_risk_never_low :
    ∀ a h hz t,
      (0.5 : ℚ) ≤ (HazardPredictionModel.predict a h hz t).risk_score ∧
      (HazardPredictionModel.predict a h hz t).risk_score ≤ 1 ∧
      (HazardPredictionModel.predict a h hz t).risk_level ≠ RiskLevel.LOW := by
  intro a h hz t
  have hs := seedOf_lt_100 a h hz
  have key := hazard_seed_cases (HazardPredictionModel.seedOf a h hz) hs
  exact ⟨key.1, key.2.1, key.2.2⟩

/-- C1 (counterexample): at area id 97 the first heatmap cell carries the
unrounded score 127/150, which the inline chain classifies as HIGH, but the
returned risk_score field is its rounding 0.85, which the classifier maps to
EXTREME — so the risk_level field does not equal the classifier applied to
the returned risk_score field. -/
theorem risk_level_vs_rounded_score_counterexample :
    (HeatmapGenerator.cell 97 0 0).risk_score = 0.85 ∧
    (HeatmapGenerator.cell 97 0 0).risk_level = RiskLevel.HIGH ∧
    RiskClassifier.classify 0.85 = RiskLevel.EXTREME ∧
    HeatmapGenerator.cell 97 0 0 ∈
      HeatmapGenerator.generate_grid 97 "landslide" "susceptibility" "low" ∧
    ¬ ∀ c ∈ HeatmapGenerator.generate_grid 97 "landslide" "susceptibility" "low",
        c.risk_level = RiskClassifier.classify c.risk_score := by
  refine ⟨by decide, by decide, by decide, by decide, by decide⟩

/-- C1 (amended): in every component the risk_level field equals the
RiskClassifier classification applied to the component's pre-rounding risk
score, and the returned risk_score field is the 2-decimal rounding of that
same pre-rounding score; the classifier is applied before rounding, not to
the rounded field the caller sees. -/
theorem risk_level_matches_classifier_of_raw_score :
    (∀ a h hz t,
      (HazardPredictionModel.predict a h hz t).risk_level =
        RiskClassifier.classify (HazardPredictionModel.rawScore a h hz) ∧
      (HazardPredictionModel.predict a h hz t).risk_score =
        round2 (HazardPredictionModel.rawScore a h hz)) ∧
    (∀ b sc,
      (ScenarioSimulationModel.simulate b sc).risk_level =
        RiskClassifier.classify (ScenarioSimulationModel.rawScore b sc) ∧
      (ScenarioSimulationModel.simulate b sc).risk_delta =
        round2 (ScenarioSimulationModel.rawScore b sc - b) ∧
      (ScenarioSimulationModel.simulate b sc).risk_score =
        round2 (ScenarioSimulationModel.rawScore b sc)) ∧
    (∀ a i j,
      (HeatmapGenerator.cell a i j).risk_level =
        RiskClassifier.classify (HeatmapGenerator.cellRaw a i j) ∧
      (HeatmapGenerator.cell a i j).risk_score =
        round2 (HeatmapGenerator.cellRaw a i j)) ∧
    (∀ a h l r, HeatmapGenerator.generate_grid a h l r =
      (List.range (HeatmapGenerator.grid_sizes r)).flatMap fun i =>
        (List.range (HeatmapGenerator.grid_sizes r)).map fun j =>
          HeatmapGenerator.cell a i j) :=
  ⟨fun _ _ _ _ => ⟨hazard_chain_eq_classify _, rfl⟩,
   fun _ _ => ⟨scenario_chain_eq_classify _, rfl, rfl⟩,
   fun _ _ _ => ⟨heatmap_chain_eq_classify _, rfl⟩,
   fun _ _ _ _ => rfl⟩

/-- C3: HazardPredictionModel.predict derives its seed from the MD5 digest
of the concatenated area id, hazard and horizon strings (first 8 hex
characters read as an unsigned integer, reduced modulo 100), returns the
seeded rounded risk score and confidence, maps the horizon to hours through
the 6h/24h/72h/7d table with default 24, and anchors the expected window at
the invocation time with the half-horizon as its start, so the window is
always ordered. -/
theorem hazard_predictor_formula (a : ℕ) (hazard horizon : String) (now : ℤ) :
    (HazardPredictionModel.predict a hazard horizon now).risk_score =
      round2 (0.5 + (HazardPredictionModel.seedOf a hazard horizon : ℚ) / 200) ∧
    (HazardPredictionModel.predict a hazard horizon now).confidence =
      round2 (0.80 + (HazardPredictionModel.seedOf a hazard horizon : ℚ) / 500) ∧
    HazardPredictionModel.seedOf a hazard horizon =
      MD5.first8hex (strBytes (toString a ++ hazard ++ horizon)) % 100 ∧
    HazardPredictionModel.horizon_hours "6h" = 6 ∧
    HazardPredictionModel.horizon_hours "24h" = 24 ∧
    HazardPredictionModel.horizon_hours "72h" = 72 ∧
    HazardPredictionModel.horizon_hours "7d" = 168 ∧
    (∀ hz, hz ≠ "6h" → hz ≠ "24h" → hz ≠ "72h" → hz ≠ "7d" →
      HazardPredictionModel.horizon_hours hz = 24) ∧
    (HazardPredictionModel.predict a hazard horizon now).expected_window_from =
      now + 3600 * ((HazardPredictionModel.horizon_hours horizon / 2 : ℕ) : ℤ) ∧
    (HazardPredictionModel.predict a hazard horizon now).expected_window_to =
      now + 3600 * ((HazardPredictionModel.horizon_hours horizon : ℕ) : ℤ) ∧
    (HazardPredictionModel.predict a hazard horizon now).expected_window_from ≤
      (HazardPredictionModel.predict a hazard horizon now).expected_window_to := by
  refine ⟨rfl, rfl, rfl, rfl, rfl, rfl, rfl, ?_, rfl, rfl, ?_⟩
  · intro hz h6 h24 h72 h7
    simp [HazardPredictionModel.horizon_hours, h6, h24, h72, h7]
  · show now + 3600 * ((HazardPredictionModel.horizon_hours horizon / 2 : ℕ) : ℤ) ≤
      now + 3600 * ((HazardPredictionModel.horizon_hours horizon : ℕ) : ℤ)
    have hh := Nat.div_le_self (HazardPredictionModel.horizon_hours horizon) 2
    omega

/-- C3 (witness): an unknown horizon string falls back to 24 hours, and the
expected window of a concrete call is ordered. -/
theorem hazard_predictor_formula_witness :
    HazardPredictionModel.horizon_hours "48h" = 24 ∧
    (HazardPredictionModel.predict 42 "landslide" "24h" 0).expected_window_from ≤
      (HazardPredictionModel.predict 42 "landslide" "24h" 0).expected_window_to :=
  ⟨(hazard_predictor_formula 42 "landslide" "24h" 0).2.2.2.2.2.2.2.1 "48h"
      (by decide) (by decide) (by decide) (by decide),
   (hazard_predictor_formula 42 "landslide" "24h" 0).2.2.2.2.2.2.2.2.2.2⟩

/-- C4 (counterexample): at area id 98 with a single start point both
returned routes carry risk_score exactly 0.30, because the unrounded values
0.296 and 0.298 round up to 0.30 — so the returned risk_score is not below
0.30 and the half-open bound of the claim fails. -/
theorem route_risk_reaches_upper_bound :
    (RoutingEngine.compute_safe_routes 98 [{ lat := 0, lon := 0 }]).map
        (fun r => r.risk_score) = [0.3, 0.3] ∧
    ¬ ∀ r ∈ RoutingEngine.compute_safe_routes 98 [{ lat := 0, lon := 0 }],
        r.risk_score < 0.3 := by
  refine ⟨by decide, by decide⟩

/-- C4 (amended): compute_safe_routes returns exactly twice as many routes
as start points; every returned route has risk_score in the closed interval
[0.10, 0.30] (the rounding of 0.1 + seed/500 can land exactly on 0.30) and
eta_minutes in [10, 30); and the route at start-point index idx with route
number route_num carries seed (area_id + 10·idx + route_num) mod 100,
risk_score round2(0.1 + seed/500) and eta_minutes 10 + seed div 5. -/
theorem routes_count_and_bounds :
    ∀ a pts,
      (RoutingEngine.compute_safe_routes a pts).length = 2 * pts.length ∧
      (∀ r ∈ RoutingEngine.compute_safe_routes a pts,
        (0.1 : ℚ) ≤ r.risk_score ∧ r.risk_score ≤ 0.3 ∧
        10 ≤ r.eta_minutes ∧ r.eta_minutes < 30) ∧
      (∀ idx route_num p,
        (RoutingEngine.route a idx route_num p).risk_score =
          round2 (0.1 + (RoutingEngine.routeSeed a idx route_num : ℚ) / 500) ∧
        (RoutingEngine.route a idx route_num p).eta_minutes =
          10 + RoutingEngine.routeSeed a idx route_num / 5) := by
  intro a pts
  refine ⟨routes_length a pts, ?_, fun idx route_num p => ⟨rfl, rfl⟩⟩
  intro r hr
  simp only [RoutingEngine.compute_safe_routes] at hr
  obtain ⟨ip, hip, hr2⟩ := List.mem_flatMap.mp hr
  obtain ⟨n, hn, rfl⟩ := List.mem_map.mp hr2
  have hs : RoutingEngine.routeSeed a ip.1 n < 100 := Nat.mod_lt _ (by norm_num)
  exact route_seed_cases _ hs

/-- C4 (amended, witness): a concrete call returns two routes, and the first
route option of that call respects the lower risk bound. -/
theorem routes_count_and_bounds_witness :
    (RoutingEngine.compute_safe_routes 7 [{ lat := 1, lon := 2 }]).length = 2 ∧
    (0.1 : ℚ) ≤ (RoutingEngine.route 7 0 0 { lat := 1, lon := 2 }).risk_score :=
  ⟨(routes_count_and_bounds 7 [{ lat := 1, lon := 2 }]).1,
   ((routes_count_and_bounds 7 [{ lat := 1, lon := 2 }]).2.1
      (RoutingEngine.route 7 0 0 { lat := 1, lon := 2 }) (by decide)).1⟩

/-- C5: ScenarioSimulationModel.simulate returns the rounded clamped product
of baseline and multiplier as risk_score, the rounded difference with the
baseline as risk_delta, builds the multiplier from the per-type base plus
the additive rain and groundwater bonuses (both may apply), and the returned
risk_score never exceeds 1. -/
theorem scenario_formula :
    ∀ b sc,
      (ScenarioSimulationModel.simulate b sc).risk_score =
        round2 (min (b * ScenarioSimulationModel.multiplierOf sc) 1) ∧
      (ScenarioSimulationModel.simulate b sc).risk_delta =
        round2 (min (b * ScenarioSimulationModel.multiplierOf sc) 1 - b) ∧
      ScenarioSimulationModel.multiplierOf sc =
        ScenarioSimulationModel.impact_multipliers sc.type +
          (match sc.total_mm with
            | some v => if 200 < v then (0.1 : ℚ) else 0
            | none => 0) +
          (match sc.rise_meters with
            | some v => if 1 < v then (0.15 : ℚ) else 0
            | none => 0) ∧
      ScenarioSimulationModel.impact_multipliers "rainfall" = 1.3 ∧
      ScenarioSimulationModel.impact_multipliers "soil_saturation" = 1.2 ∧
      ScenarioSimulationModel.impact_multipliers "groundwater_rise" = 1.25 ∧
      ScenarioSimulationModel.impact_multipliers "load_increase" = 1.15 ∧
      (ScenarioSimulationModel.simulate b sc).risk_score ≤ 1 := by
  intro b sc
  refine ⟨rfl, rfl, ?_, rfl, rfl, rfl, rfl, round2_le_one (min_le_right _ _)⟩
  obtain ⟨t, mm, dh, rm⟩ := sc
  rcases mm with _ | v <;> rcases rm with _ | w <;>
    simp only [ScenarioSimulationModel.multiplierOf] <;> (try split_ifs) <;> ring

/-- C7: the heatmap grid has exactly 4 cells at low resolution, 16 at
medium, 64 at high, and 16 for any unknown resolution string, and every
cell's polygon consists of a single ring of exactly 5 coordinate points
whose first point equals its last. -/
theorem heatmap_grid_shape :
    ∀ a hazard layer,
      (HeatmapGenerator.generate_grid a hazard layer "low").length = 4 ∧
      (HeatmapGenerator.generate_grid a hazard layer "medium").length = 16 ∧
      (HeatmapGenerator.generate_grid a hazard layer "high").length = 64 ∧
      (∀ res, res ≠ "low" → res ≠ "medium" → res ≠ "high" →
        (HeatmapGenerator.generate_grid a hazard layer res).length = 16) ∧
      (∀ res c, c ∈ HeatmapGenerator.generate_grid a hazard layer res →
        c.coordinates.length = 1 ∧
        ∀ ring ∈ c.coordinates, ring.length = 5 ∧ ring.head? = ring.getLast?) := by
  intro a hazard layer
  refine ⟨by rw [grid_length]; rfl, by rw [grid_length]; rfl,
    by rw [grid_length]; rfl, ?_, ?_⟩
  · intro res h1 h2 h3
    rw [grid_length]
    have h4 : HeatmapGenerator.grid_sizes res = 4 := by
      simp [HeatmapGenerator.grid_sizes, h1, h2, h3]
    rw [h4]
  · intro res c hc
    simp only [HeatmapGenerator.generate_grid] at hc
    obtain ⟨i, hi, hc2⟩ := List.mem_flatMap.mp hc
    obtain ⟨j, hj, rfl⟩ := List.mem_map.mp hc2
    refine ⟨rfl, ?_⟩
    intro ring hring
    have hr : ring = [(75.79 + (i : ℚ) * 0.01, 26.91 + (j : ℚ) * 0.01),
        (75.79 + ((i : ℚ) + 1) * 0.01, 26.91 + (j : ℚ) * 0.01),
        (75.79 + ((i : ℚ) + 1) * 0.01, 26.91 + ((j : ℚ) + 1) * 0.01),
        (75.79 + (i : ℚ) * 0.01, 26.91 + ((j : ℚ) + 1) * 0.01),
        (75.79 + (i : ℚ) * 0.01, 26.91 + (j : ℚ) * 0.01)] := by
      simpa [HeatmapGenerator.cell] using hring
    subst hr
    exact ⟨rfl, rfl⟩

/-- C7 (witness): a concrete unknown resolution yields 16 cells, a concrete
low-resolution grid has 4 cells, and a concrete cell of it has one closed
5-point ring. -/
theorem heatmap_grid_shape_witness :
    (HeatmapGenerator.generate_grid 3 "landslide" "susceptibility" "whatever").length = 16 ∧
    (HeatmapGenerator.generate_grid 3 "landslide" "susceptibility" "low").length = 4 ∧
    (HeatmapGenerator.cell 3 0 0).coordinates.length = 1 :=
  ⟨(heatmap_grid_shape 3 "landslide" "susceptibility").2.2.2.1 "whatever"
      (by decide) (by decide) (by decide),
   (heatmap_grid_shape 3 "landslide" "susceptibility").1,
   ((heatmap_grid_shape 3 "landslide" "susceptibility").2.2.2.2 "low"
      (HeatmapGenerator.cell 3 0 0) (by decide)).1⟩

/-- C9: no core operation can fail on well-typed input (each embedded
operation is a total function), and the three string-keyed lookups fall back
to their documented defaults for every unknown enumeration value: base
multiplier 1.2, grid side 4, 24-hour horizon. -/
theorem unknown_enum_values_fall_back :
    (∀ t, t ≠ "rainfall" → t ≠ "soil_saturation" → t ≠ "groundwater_rise" →
      t ≠ "load_increase" → ScenarioSimulationModel.impact_multipliers t = 1.2) ∧
    (∀ res, res ≠ "low" → res ≠ "medium" → res ≠ "high" →
      HeatmapGenerator.grid_sizes res = 4) ∧
    (∀ hz, hz ≠ "6h" → hz ≠ "24h" → hz ≠ "72h" → hz ≠ "7d" →
      HazardPredictionModel.horizon_hours hz = 24) := by
  refine ⟨fun t h1 h2 h3 h4 => ?_, fun res h1 h2 h3 => ?_, fun hz h1 h2 h3 h4 => ?_⟩ <;>
    simp [ScenarioSimulationModel.impact_multipliers, HeatmapGenerator.grid_sizes,
      HazardPredictionModel.horizon_hours, *]

/-- C9 (witness): concrete unknown enumeration strings hit the defaults. -/
theorem unknown_enum_values_fall_back_witness :
    ScenarioSimulationModel.impact_multipliers "storm" = 1.2 ∧
    HeatmapGenerator.grid_sizes "ultra" = 4 ∧
    HazardPredictionModel.horizon_hours "36h" = 24 :=
  ⟨unknown_enum_values_fall_back.1 "storm" (by decide) (by decide) (by decide) (by decide),
   unknown_enum_values_fall_back.2.1 "ultra" (by decide) (by decide) (by decide),
   unknown_enum_values_fall_back.2.2 "36h" (by decide) (by decide) (by decide) (by decide)⟩

end EWS
